import Mathlib

/-!
Verification of the `argle` command-line argument combinator library
(`src/lib.rs`) against its natural-language specification.

The library builds trees of typed argument descriptors (the Rust trait
`Arg`) from primitive descriptors (`Flag`, `Opt`, `Value`) and combinators
(`Map`, `OptionMap`, `WithDefault`, `Both`, `Choice`, `Required`,
`OptionConvertString`, `WithHelp`).  A descriptor registers a flat sequence
of switches, reports a display name, and extracts a typed result (or a
structured error) from a match surface.

Embedding notes:
* A descriptor is embedded as a record `Arg I E` holding the sequence of
  `(SwitchCommon, SwitchShape)` pairs its `update_switches` presents to a
  registration surface (in presentation order), its `name()` string, and
  its `get` function from a match surface to `Except E I`.  Each Rust
  combinator is transcribed as a function on such records; the `get`
  bodies follow the Rust sources line by line.
* The match surface (`getopts::Matches`) is embedded by its two queried
  capabilities, `opt_present` and `opt_str`.
* The `validation` module (the `Checker`) and the external matching engine
  (`getopts`) are not under `src/`; they are modelled from the
  specification where needed, and marked as such in their doc comments.
-/

namespace Argle

/-- Rust `util::Never`: an uninhabited error type for descriptors that
never fail. -/
inductive Never : Type

/-- Rust `Never::result_ok`: unwrap a `Result<T, Never>`, which can only
be `Ok`. -/
def Never.result_ok {A : Type} : Except Never A → A
  | .ok a => a
  | .error e => nomatch e

/-- Rust `SwitchCommon`: identity of a switch (short name, long name, doc
string). -/
structure SwitchCommon where
  short : String
  long : String
  doc : String
deriving DecidableEq, Repr

/-- Rust `SwitchCommon::key_to_search_in_matches`: the short name when it
is non-empty, otherwise the long name. -/
def SwitchCommon.key_to_search_in_matches (c : SwitchCommon) : String :=
  if c.short.length ≠ 0 then c.short else c.long

/-- Rust `SwitchShape`: a presence-only flag or a value-taking option with
a usage hint. -/
inductive SwitchShape : Type
  | Flag : SwitchShape
  | Opt : (hint : String) → SwitchShape
deriving DecidableEq, Repr

/-- The match surface (`getopts::Matches`) by its two capabilities used by
the library: `opt_present` and `opt_str`, queried by switch key. -/
structure Matches where
  opt_present : String → Bool
  opt_str : String → Option String

/-- Embedding of the Rust trait `Arg`: `switches` is the sequence of
`(SwitchCommon, SwitchShape)` pairs that `update_switches` presents to any
registration surface, in presentation order; `name` is `name()`; `get` is
the extraction step. -/
structure Arg (I : Type) (E : Type) where
  switches : List (SwitchCommon × SwitchShape)
  name : String
  get : Matches → Except E I

/-- Rust `Arg::update_switches` against an arbitrary registration surface
`S` with operation `add`: present this descriptor's switch sequence to the
surface, in order. -/
def Arg.update_switches {I E S : Type} (a : Arg I E)
    (add : S → SwitchCommon → SwitchShape → S) (s : S) : S :=
  a.switches.foldl (fun s p => add s p.1 p.2) s

/-- Rust `Flag` (as an `Arg` implementation): registers one `Flag`-shaped
switch, `name()` returns the long name, `get` reports presence keyed by
`key_to_search_in_matches`. -/
def Flag (common : SwitchCommon) : Arg Bool Never where
  switches := [(common, SwitchShape.Flag)]
  name := common.long
  get m := .ok (m.opt_present common.key_to_search_in_matches)

/-- Rust `Opt` (as an `Arg` implementation): registers one `Opt`-shaped
switch with its hint, `name()` returns the long name, `get` returns the
optional string value keyed by `key_to_search_in_matches`. -/
def Opt (common : SwitchCommon) (hint : String) : Arg (Option String) Never
    where
  switches := [(common, SwitchShape.Opt hint)]
  name := common.long
  get m := .ok (m.opt_str common.key_to_search_in_matches)

/-- Rust `Value`: registers nothing and always succeeds with a fixed
constant. -/
def Value {T : Type} (name : String) (value : T) : Arg T Never where
  switches := []
  name := name
  get _ := .ok value

/-- Rust `OrHelp`. -/
inductive OrHelp (T : Type) : Type
  | Value : T → OrHelp T
  | Help : OrHelp T
deriving DecidableEq, Repr

/-- Rust `WithHelp<A>::get`, as a function of the help flag's result and
the wrapped descriptor's (lazily taken) result: if the help flag is
present, `Ok(OrHelp::Help)`; otherwise extract the wrapped descriptor and
wrap its item in `OrHelp::Value`. -/
def WithHelp.get_impl {I E : Type} (help_result : Except Never Bool)
    (arg_result : Unit → Except E I) : Except E (OrHelp I) :=
  if Never.result_ok help_result then .ok OrHelp.Help
  else (arg_result ()).map OrHelp.Value

/-- Rust `WithHelp<A>` built by `Arg::with_help(help_flag)`: registers the
wrapped descriptor's switches then the help flag's; the help flag is
checked before the wrapped descriptor is extracted. -/
def with_help {I E : Type} (a : Arg I E) (help_common : SwitchCommon) :
    Arg (OrHelp I) E where
  switches := a.switches ++ (Flag help_common).switches
  name := "(" ++ a.name ++ ") with help"
  get m := WithHelp.get_impl ((Flag help_common).get m) (fun _ => a.get m)

theorem with_help_get_eq {I E : Type} (a : Arg I E)
    (help_common : SwitchCommon) (m : Matches) :
    (with_help a help_common).get m =
      if m.opt_present help_common.key_to_search_in_matches then
        .ok OrHelp.Help
      else (a.get m).map OrHelp.Value := rfl

/-- Rust `OptionMap` built by `Arg::option_map(f)`: registers the inner
descriptor's switches, keeps its name, and maps `f` over the inner value
of a present optional result. -/
def option_map {T U E : Type} (a : Arg (Option T) E) (f : T → U) :
    Arg (Option U) E where
  switches := a.switches
  name := a.name
  get m := (a.get m).map (fun x => x.map f)

/-- Rust `WithDefault<A, T>::get`, as a function of the inner result:
absent becomes the fallback value, present stays, errors propagate. -/
def WithDefault.get_impl {T E : Type} (arg_result : Except E (Option T))
    (default_value : T) : Except E T :=
  arg_result.map (fun x => x.getD default_value)

/-- Rust `WithDefault` built by `Arg::with_default(default_value)`. -/
def with_default {T E : Type} (a : Arg (Option T) E) (default_value : T) :
    Arg T E where
  switches := a.switches
  name := a.name
  get m := WithDefault.get_impl (a.get m) default_value

/-- Rust `ChoiceError`. -/
inductive ChoiceError (EA EB : Type) : Type
  | A : EA → ChoiceError EA EB
  | B : EB → ChoiceError EA EB
  | MultipleMutuallyExclusiveArgs : (a : String) → (b : String) →
      ChoiceError EA EB
deriving DecidableEq, Repr

/-- Rust `Display` for `ChoiceError`, given displays of the two
sub-descriptor error types. -/
def ChoiceError.display {EA EB : Type} (dispA : EA → String)
    (dispB : EB → String) : ChoiceError EA EB → String
  | .A a => dispA a
  | .B b => dispB b
  | .MultipleMutuallyExclusiveArgs a b =>
      "(" ++ a ++ ") and (" ++ b ++ ") are mutually exclusive"

/-- Rust `Choice<A, B>::get`, as a function of the two names and the two
sub-results: `a`'s error is propagated first (`ChoiceError::A`); when `a`
is present, `b`'s error propagates, both present is the mutual-exclusion
error, otherwise `a`'s value is kept; when `a` is absent the result is
`b`'s (errors wrapped in `ChoiceError::B`). -/
def Choice.get_impl {T EA EB : Type} (a_name b_name : String)
    (a_result : Except EA (Option T)) (b_result : Except EB (Option T)) :
    Except (ChoiceError EA EB) (Option T) :=
  match a_result with
  | .error ea => .error (ChoiceError.A ea)
  | .ok (some a_value) =>
      match b_result with
      | .error eb => .error (ChoiceError.B eb)
      | .ok (some _) =>
          .error (ChoiceError.MultipleMutuallyExclusiveArgs a_name b_name)
      | .ok none => .ok (some a_value)
  | .ok none =>
      match b_result with
      | .error eb => .error (ChoiceError.B eb)
      | .ok v => .ok v

/-- Rust `Choice` built by `Arg::choice(other)`: registers `a`'s switches
then `b`'s. -/
def choice {T EA EB : Type} (a : Arg (Option T) EA) (b : Arg (Option T) EB) :
    Arg (Option T) (ChoiceError EA EB) where
  switches := a.switches ++ b.switches
  name := "choose (" ++ a.name ++ ") or (" ++ b.name ++ ")"
  get m := Choice.get_impl a.name b.name (a.get m) (b.get m)

/-- Rust `BothError`. -/
inductive BothError (EA EB : Type) : Type
  | A : EA → BothError EA EB
  | B : EB → BothError EA EB
deriving DecidableEq, Repr

/-- Rust `Display` for `BothError`. -/
def BothError.display {EA EB : Type} (dispA : EA → String)
    (dispB : EB → String) : BothError EA EB → String
  | .A a => dispA a
  | .B b => dispB b

/-- Rust `Both<A, B>::get`, as a function of the two sub-results: `a` is
extracted fully first (its error, wrapped in `BothError::A`, wins when it
fails), then `b` (error wrapped in `BothError::B`); on success the pair of
items. -/
def Both.get_impl {IA IB EA EB : Type} (a_result : Except EA IA)
    (b_result : Unit → Except EB IB) : Except (BothError EA EB) (IA × IB) :=
  match a_result with
  | .error ea => .error (BothError.A ea)
  | .ok x =>
      match b_result () with
      | .error eb => .error (BothError.B eb)
      | .ok y => .ok (x, y)

/-- Rust `Both` built by `Arg::both(other)`: registers `a`'s switches then
`b`'s. -/
def both {IA IB EA EB : Type} (a : Arg IA EA) (b : Arg IB EB) :
    Arg (IA × IB) (BothError EA EB) where
  switches := a.switches ++ b.switches
  name := "(" ++ a.name ++ " and " ++ b.name ++ ")"
  get m := Both.get_impl (a.get m) (fun _ => b.get m)

/-- Rust `Map` built by `Arg::map(f)`: registers the inner descriptor's
switches, keeps its name, maps `f` over the successful result. -/
def map {I U E : Type} (a : Arg I E) (f : I → U) : Arg U E where
  switches := a.switches
  name := a.name
  get m := (a.get m).map f

/-- Rust `RequiredError`. -/
inductive RequiredError (EA : Type) : Type
  | Arg : EA → RequiredError EA
  | MissingRequiredArg : (name : String) → RequiredError EA
deriving DecidableEq, Repr

/-- Rust `Display` for `RequiredError`: the missing-argument case renders
as "missing required argument (" followed by the name and ")". -/
def RequiredError.display {EA : Type} (dispA : EA → String) :
    RequiredError EA → String
  | .Arg a => dispA a
  | .MissingRequiredArg name => "missing required argument (" ++ name ++ ")"

/-- Rust `Required<A>::get`, as a function of the descriptor name and the
inner result: a present value passes through, an absent one is the
missing-required error naming the descriptor, inner errors are wrapped in
`RequiredError::Arg`. -/
def Required.get_impl {T EA : Type} (name : String)
    (arg_result : Except EA (Option T)) : Except (RequiredError EA) T :=
  match arg_result with
  | .error ea => .error (RequiredError.Arg ea)
  | .ok (some x) => .ok x
  | .ok none => .error (RequiredError.MissingRequiredArg name)

/-- Rust `Required` built by `Arg::required()`. -/
def required {T EA : Type} (a : Arg (Option T) EA) :
    Arg T (RequiredError EA) where
  switches := a.switches
  name := a.name
  get m := Required.get_impl a.name (a.get m)

/-- Rust `OptionConvertStringError`. -/
inductive OptionConvertStringError (EA E : Type) : Type
  | Arg : EA → OptionConvertStringError EA E
  | FailedToConvert : (name : String) → (arg_string : String) →
      (error : E) → OptionConvertStringError EA E
deriving DecidableEq, Repr

/-- Rust `Display` for `OptionConvertStringError`: the conversion-failure
case names the descriptor, quotes the original argument string, and shows
the underlying conversion error. -/
def OptionConvertStringError.display {EA E : Type} (dispA : EA → String)
    (dispE : E → String) : OptionConvertStringError EA E → String
  | .Arg a => dispA a
  | .FailedToConvert name arg_string error =>
      "failed to convert argument (" ++ name ++ "). \"" ++ arg_string ++
        "\" could not be parsed (error: " ++ dispE error ++ ")"

/-- Rust `OptionConvertString<A, F>::get`, as a function of the descriptor
name, the inner result, and the conversion function: an absent inner
value stays absent without running the conversion; a present string is
converted, a conversion failure wrapping the name, the original string
and the underlying error; inner errors are wrapped in
`OptionConvertStringError::Arg`. -/
def OptionConvertString.get_impl {T E EA : Type} (name : String)
    (arg_result : Except EA (Option String)) (f : String → Except E T) :
    Except (OptionConvertStringError EA E) (Option T) :=
  match arg_result with
  | .error ea => .error (OptionConvertStringError.Arg ea)
  | .ok none => .ok none
  | .ok (some arg_string) =>
      match f arg_string with
      | .ok v => .ok (some v)
      | .error error =>
          .error (OptionConvertStringError.FailedToConvert name arg_string
            error)

/-- Rust `OptionConvertString` built by `Arg::option_convert_string(f)`. -/
def option_convert_string {T E EA : Type} (a : Arg (Option String) EA)
    (f : String → Except E T) :
    Arg (Option T) (OptionConvertStringError EA E) where
  switches := a.switches
  name := a.name
  get m := OptionConvertString.get_impl a.name (a.get m) f

/-- Modelled from the spec: the deduplication key of a switch, "whichever
of short/long is non-empty, preferring short" (spec section 3); the
repository's `validation` module is not under `src/`. -/
def dedup_key (c : SwitchCommon) : String :=
  if c.short.isEmpty then c.long else c.short

/-- Modelled from the spec: the Validation Checker of the missing
`validation` module, "a Switch Registration Surface stand-in that records
every SwitchSpec presented to it" (spec section 4.4); `keys` is the list
of dedup keys presented, in order. -/
structure Checker where
  keys : List String
deriving DecidableEq, Repr

/-- Modelled from the spec: presenting one switch to the Validation
Checker records its dedup key. -/
def Checker.add (c : Checker) (common : SwitchCommon)
    (_shape : SwitchShape) : Checker :=
  Checker.mk (c.keys ++ [dedup_key common])

/-- Modelled from the spec: when queried, the Validation Checker "reports
the set of dedup keys that were registered more than once (empty =
valid)" (spec section 4.4). -/
def Checker.invalid (c : Checker) : Option (List String) :=
  let dups := (c.keys.filter (fun k => decide (1 < c.keys.count k))).dedup
  if dups.isEmpty then none else some dups

/-- Rust `Arg::validate`: run `update_switches` against a fresh Validation
Checker and report its collisions. -/
def Arg.validate {I E : Type} (a : Arg I E) : Option (List String) :=
  (a.update_switches Checker.add (Checker.mk [])).invalid

/-- Modelled from the spec: the external registration surface
(`getopts::Options`), which records switch definitions in registration
order for later matching (spec section 6). -/
structure Options where
  switches : List (SwitchCommon × SwitchShape)
deriving DecidableEq, Repr

/-- Modelled from the spec: registering one switch on the external
registration surface appends its definition. -/
def Options.add (o : Options) (common : SwitchCommon)
    (shape : SwitchShape) : Options :=
  Options.mk (o.switches ++ [(common, shape)])

/-- Modelled from the spec: a token of `argv` names a switch when it
starts with "--" (long form) or "-" (short form); other tokens (including
a lone "-") are free arguments. -/
def token_switch_key (t : String) : Option String :=
  match t.data with
  | '-' :: '-' :: rest => some (String.mk rest)
  | '-' :: c :: rest => some (String.mk (c :: rest))
  | _ => none

/-- Modelled from the spec: look up a registered switch by either of its
names. -/
def find_switch (switches : List (SwitchCommon × SwitchShape))
    (k : String) : Option (SwitchCommon × SwitchShape) :=
  switches.find? (fun p => p.1.short == k || p.1.long == k)

/-- Modelled from the spec: the external matching engine (spec section 6),
which "given the registered switch set and the raw argument list, returns
either a Match Surface or a structured failure" (unknown switch; missing
required value for a value-taking switch).  The result is the list of
matched switch occurrences with their supplied values; free tokens are
skipped (positional arguments are out of scope). -/
def match_tokens (switches : List (SwitchCommon × SwitchShape)) :
    List String → Except String (List (SwitchCommon × Option String))
  | [] => .ok []
  | t :: rest =>
      match token_switch_key t with
      | none => match_tokens switches rest
      | some k =>
          match find_switch switches k with
          | none => .error ("Unrecognized option: " ++ k)
          | some (c, SwitchShape.Flag) =>
              (match_tokens switches rest).map (fun ms => (c, none) :: ms)
          | some (c, SwitchShape.Opt _) =>
              match rest with
              | [] => .error ("Argument to option " ++ k ++ " missing.")
              | v :: rest2 =>
                  (match_tokens switches rest2).map
                    (fun ms => (c, some v) :: ms)

/-- Modelled from the spec: the Match Surface produced by the matching
engine from the matched occurrences; `opt_present` and `opt_str` accept
either name of a matched switch, `opt_str` returning the first supplied
value. -/
def Matches.of_matched (ms : List (SwitchCommon × Option String)) :
    Matches where
  opt_present k := ms.any (fun p => p.1.short == k || p.1.long == k)
  opt_str k :=
    (ms.find? (fun p => p.1.short == k || p.1.long == k)).bind
      (fun p => p.2)

/-- Rust `TopLevelError`: either the matching engine's own failure
(modelled by its message string) or the descriptor tree's extraction
error. -/
inductive TopLevelError (E : Type) : Type
  | Getopts : (fail : String) → TopLevelError E
  | Other : E → TopLevelError E
deriving DecidableEq, Repr

/-- Rust `Display` for `TopLevelError`. -/
def TopLevelError.display {E : Type} (dispE : E → String) :
    TopLevelError E → String
  | .Getopts fail => fail
  | .Other other => dispE other

/-- Rust `Usage`: the registered switches and the program name (its text
rendering is out of scope). -/
structure Usage where
  opts : Options
  program_name : String
deriving DecidableEq, Repr

/-- Rust `ParseResult`. -/
structure ParseResult (I E : Type) where
  usage : Usage
  result : Except (TopLevelError E) I

/-- Rust `Arg::parse_specified_ignoring_validation`: register the
switches on the external surface, run the matching engine on the argument
list, and either surface the engine's failure or extract the descriptor
tree on the produced Match Surface. -/
def Arg.parse_specified_ignoring_validation {I E : Type} (a : Arg I E)
    (program_name : String) (args : List String) : ParseResult I E :=
  let opts := a.update_switches Options.add (Options.mk [])
  ParseResult.mk (Usage.mk opts program_name)
    (match match_tokens opts.switches args with
     | .error fail => .error (TopLevelError.Getopts fail)
     | .ok ms => (a.get (Matches.of_matched ms)).mapError TopLevelError.Other)

/-- Outcome of a call that may terminate the process with a panic
diagnostic instead of returning a value. -/
inductive PanicOr (A : Type) : Type
  | panicked : (msg : String) → PanicOr A
  | returned : A → PanicOr A

/-- Modelled from the spec: rendering of the collision report inside the
panic diagnostic (the `Display` of the missing `validation` module's
`Invalid`). -/
def Invalid.render (invalid : List String) : String :=
  String.intercalate "\n" (invalid.map (fun k => "duplicate switch: " ++ k))

/-- Rust `Arg::parse_specified`: validate first and panic with a
diagnostic on a collision (the argument list is never examined in that
case); otherwise proceed exactly as
`parse_specified_ignoring_validation`. -/
def Arg.parse_specified {I E : Type} (a : Arg I E) (program_name : String)
    (args : List String) : PanicOr (ParseResult I E) :=
  match a.validate with
  | some invalid =>
      PanicOr.panicked ("Invalid command spec:\n" ++ Invalid.render invalid)
  | none =>
      PanicOr.returned
        (a.parse_specified_ignoring_validation program_name args)

/-- The value of a decimal digit character, `none` for other characters. -/
def char_digit (c : Char) : Option Nat :=
  if 48 ≤ c.toNat ∧ c.toNat ≤ 57 then some (c.toNat - 48) else none

def digits_value : List Char → Nat → Option Nat
  | [], acc => some acc
  | c :: rest, acc =>
      match char_digit c with
      | none => none
      | some d => digits_value rest (acc * 10 + d)

/-- The decimal value of a non-empty all-digit string, `none` otherwise. -/
def decimal_value (s : String) : Option Nat :=
  match s.data with
  | [] => none
  | cs => digits_value cs 0

/-- Modelled from the spec: the string-to-integer conversion used by the
round-trip property's required integer-valued option (Rust
`u32::from_str`, external to the library): decimal digit strings whose
value fits in 32 bits convert, anything else is a conversion error. -/
def parse_u32 (s : String) : Except String Nat :=
  match decimal_value s with
  | some n =>
      if n < 4294967296 then .ok n
      else .error "number too large to fit in target type"
  | none => .error "invalid digit found in string"

/-- Rust `opt::<T>` specialised to `u32`: an `Opt` descriptor composed
with `option_convert_string` over the integer conversion. -/
def opt_u32 (short long doc hint : String) :
    Arg (Option Nat) (OptionConvertStringError Never String) :=
  option_convert_string (Opt (SwitchCommon.mk short long doc) hint) parse_u32

/-- C1: for every descriptor `a` wrapped by `with_help`, when the help
flag's key is present on the match surface, extraction returns
`OrHelp::Help`; the result does not depend on the wrapped descriptor at
all (any two wrapped descriptors of the same type give the same result),
so no error of the wrapped descriptor can arise and the help
short-circuit takes priority over all of its validation and conversion
errors. -/
theorem withHelp_help_present_short_circuits {I E : Type} (a a2 : Arg I E)
    (help_common : SwitchCommon) (m : Matches)
    (h : m.opt_present help_common.key_to_search_in_matches = true) :
    (with_help a help_common).get m = .ok OrHelp.Help ∧
      (with_help a help_common).get m = (with_help a2 help_common).get m := by
  rw [with_help_get_eq, with_help_get_eq, h]
  exact ⟨rfl, rfl⟩

/-- Witness for C1 at a concrete input: a descriptor whose extraction
always fails with the string error "boom", a help flag named "h", "help", and a
match surface on which every key is present: extraction still returns
`OrHelp::Help`. -/
theorem withHelp_help_present_short_circuits_witness :
    (with_help
        (Arg.mk [] "bad" (fun _ => .error "boom"))
        (SwitchCommon.mk "h" "help" "print this help menu")).get
      (Matches.mk (fun _ => true) (fun _ => none)) =
      .ok (OrHelp.Help (T := Nat)) := by
  exact (withHelp_help_present_short_circuits
    (Arg.mk [] "bad" (fun _ => .error "boom"))
    (Arg.mk [] "bad2" (fun _ => .error "boom2"))
    (SwitchCommon.mk "h" "help" "print this help menu")
    (Matches.mk (fun _ => true) (fun _ => none)) rfl).1

theorem choice_get_eq {T EA EB : Type} (a : Arg (Option T) EA)
    (b : Arg (Option T) EB) (m : Matches) :
    (choice a b).get m = Choice.get_impl a.name b.name (a.get m) (b.get m) :=
  rfl

/-- C3: for every `Choice` over two optional-valued descriptors and every
match surface, neither sub-result present gives `none`; exactly one
present gives that value; both present gives the mutual-exclusion error
naming both descriptors; a sub-descriptor error is propagated wrapped in
the `A` or `B` variant (with `a`'s error winning when `a` fails). -/
theorem choice_spec {T EA EB : Type} (a : Arg (Option T) EA)
    (b : Arg (Option T) EB) (m : Matches) :
    (a.get m = .ok none → b.get m = .ok none →
      (choice a b).get m = .ok none) ∧
    (∀ v, a.get m = .ok (some v) → b.get m = .ok none →
      (choice a b).get m = .ok (some v)) ∧
    (∀ v, a.get m = .ok none → b.get m = .ok (some v) →
      (choice a b).get m = .ok (some v)) ∧
    (∀ va vb, a.get m = .ok (some va) → b.get m = .ok (some vb) →
      (choice a b).get m =
        .error (ChoiceError.MultipleMutuallyExclusiveArgs a.name b.name)) ∧
    (∀ ea, a.get m = .error ea →
      (choice a b).get m = .error (ChoiceError.A ea)) ∧
    (∀ va eb, a.get m = .ok (some va) → b.get m = .error eb →
      (choice a b).get m = .error (ChoiceError.B eb)) ∧
    (∀ eb, a.get m = .ok none → b.get m = .error eb →
      (choice a b).get m = .error (ChoiceError.B eb)) := by
  refine ⟨fun ha hb => ?_, fun v ha hb => ?_, fun v ha hb => ?_,
    fun va vb ha hb => ?_, fun ea ha => ?_, fun va eb ha hb => ?_,
    fun eb ha hb => ?_⟩ <;>
    (rw [choice_get_eq, ha]; try rw [hb]) <;> rfl

/-- Witness for C3: concrete optional string options with long names "aa"
and "bb" (and concrete failing descriptors for the error cases), on match
surfaces realising each of the seven cases of the claim. -/
theorem choice_spec_witness :
    ((choice (Opt (SwitchCommon.mk "" "aa" "") "")
        (Opt (SwitchCommon.mk "" "bb" "") "")).get
      (Matches.mk (fun _ => false) (fun _ => none)) = .ok none) ∧
    ((choice (Opt (SwitchCommon.mk "" "aa" "") "")
        (Opt (SwitchCommon.mk "" "bb" "") "")).get
      (Matches.mk (fun _ => false)
        (fun k => if k == "aa" then some "x" else none)) = .ok (some "x")) ∧
    ((choice (Opt (SwitchCommon.mk "" "aa" "") "")
        (Opt (SwitchCommon.mk "" "bb" "") "")).get
      (Matches.mk (fun _ => false)
        (fun k => if k == "bb" then some "y" else none)) = .ok (some "y")) ∧
    ((choice (Opt (SwitchCommon.mk "" "aa" "") "")
        (Opt (SwitchCommon.mk "" "bb" "") "")).get
      (Matches.mk (fun _ => false)
        (fun k => if k == "aa" then some "x"
          else if k == "bb" then some "y" else none)) =
      .error (ChoiceError.MultipleMutuallyExclusiveArgs "aa" "bb")) ∧
    ((choice (Arg.mk [] "ea" (fun _ => .error "ae"))
        (Opt (SwitchCommon.mk "" "bb" "") "")).get
      (Matches.mk (fun _ => false) (fun _ => none)) =
      .error (ChoiceError.A "ae")) ∧
    ((choice (Opt (SwitchCommon.mk "" "aa" "") "")
        (Arg.mk [] "eb" (fun _ => .error "be"))).get
      (Matches.mk (fun _ => false)
        (fun k => if k == "aa" then some "x" else none)) =
      .error (ChoiceError.B "be")) ∧
    ((choice (Opt (SwitchCommon.mk "" "aa" "") "")
        (Arg.mk [] "eb" (fun _ => .error "be"))).get
      (Matches.mk (fun _ => false) (fun _ => none)) =
      .error (ChoiceError.B "be")) := by
  refine ⟨?_, ?_, ?_, ?_, ?_, ?_, ?_⟩
  · exact (choice_spec _ _ _).1 rfl rfl
  · exact (choice_spec _ _ _).2.1 "x" rfl rfl
  · exact (choice_spec _ _ _).2.2.1 "y" rfl rfl
  · exact (choice_spec _ _ _).2.2.2.1 "x" "y" rfl rfl
  · exact (choice_spec _ _ _).2.2.2.2.1 "ae" rfl
  · exact (choice_spec _ _ _).2.2.2.2.2.1 "x" "be" rfl rfl
  · exact (choice_spec _ _ _).2.2.2.2.2.2 "be" rfl rfl

theorem with_default_get_eq {T E : Type} (a : Arg (Option T) E) (x : T)
    (m : Matches) :
    (with_default a x).get m = WithDefault.get_impl (a.get m) x := rfl

/-- C7: for every `WithDefault` over an optional-valued descriptor with
fallback `x` and every match surface, an absent inner result yields
exactly `x`, a present inner result yields the supplied value, and the
inner descriptor's error is propagated unchanged. -/
theorem with_default_spec {T E : Type} (a : Arg (Option T) E) (x : T)
    (m : Matches) :
    (a.get m = .ok none → (with_default a x).get m = .ok x) ∧
    (∀ v, a.get m = .ok (some v) → (with_default a x).get m = .ok v) ∧
    (∀ e, a.get m = .error e → (with_default a x).get m = .error e) := by
  refine ⟨fun ha => ?_, fun v ha => ?_, fun e ha => ?_⟩ <;>
    rw [with_default_get_eq, ha] <;> rfl

/-- Witness for C7: a concrete optional string option with fallback "dflt"
yields "dflt" on an empty match surface, the supplied "x" when present,
and a concrete failing descriptor's error "e" unchanged. -/
theorem with_default_spec_witness :
    ((with_default (Opt (SwitchCommon.mk "" "aa" "") "") "dflt").get
      (Matches.mk (fun _ => false) (fun _ => none)) = .ok "dflt") ∧
    ((with_default (Opt (SwitchCommon.mk "" "aa" "") "") "dflt").get
      (Matches.mk (fun _ => false)
        (fun k => if k == "aa" then some "x" else none)) = .ok "x") ∧
    ((with_default (Arg.mk [] "ea" (fun _ => .error "e")) "dflt").get
      (Matches.mk (fun _ => false) (fun _ => none)) = .error "e") := by
  refine ⟨?_, ?_, ?_⟩
  · exact (with_default_spec _ _ _).1 rfl
  · exact (with_default_spec _ _ _).2.1 "x" rfl
  · exact (with_default_spec _ _ _).2.2 "e" rfl

theorem required_get_eq {T EA : Type} (a : Arg (Option T) EA) (m : Matches) :
    (required a).get m = Required.get_impl a.name (a.get m) := rfl

/-- C5 counterexample: a required string option with long name "foo",
extracted on an empty match surface, fails with the missing-required
error, but that error's display text is "missing required argument (foo)"
(name in parentheses), not "missing required argument: foo" as claimed. -/
theorem required_display_counterexample :
    (required (Opt (SwitchCommon.mk "" "foo" "") "")).get
        (Matches.mk (fun _ => false) (fun _ => none)) =
      .error (RequiredError.MissingRequiredArg "foo") ∧
    RequiredError.display (fun (e : Never) => nomatch e)
        (RequiredError.MissingRequiredArg "foo") =
      "missing required argument (foo)" ∧
    "missing required argument (foo)" ≠ "missing required argument: foo" := by
  refine ⟨rfl, rfl, by decide⟩

/-- C5 (amended): for every `Required` over an optional-valued descriptor
and every match surface, a present inner value is returned unchanged; an
absent one is the error naming the descriptor whose display text is
"missing required argument (name)" (the name in parentheses); inner
errors are propagated wrapped in `RequiredError::Arg`. -/
theorem required_spec {T EA : Type} (a : Arg (Option T) EA) (m : Matches)
    (dispA : EA → String) :
    (∀ v, a.get m = .ok (some v) → (required a).get m = .ok v) ∧
    (a.get m = .ok none →
      (required a).get m =
        .error (RequiredError.MissingRequiredArg a.name) ∧
      RequiredError.display dispA
          (RequiredError.MissingRequiredArg a.name) =
        "missing required argument (" ++ a.name ++ ")") ∧
    (∀ ea, a.get m = .error ea →
      (required a).get m = .error (RequiredError.Arg ea)) := by
  refine ⟨fun v ha => ?_, fun ha => ⟨?_, rfl⟩, fun ea ha => ?_⟩ <;>
    rw [required_get_eq, ha] <;> rfl

/-- Witness for C5 (amended): a concrete required option with long name
"foo": present value "42" passes through; absent gives the
missing-required error displaying "missing required argument (foo)"; a
concrete failing descriptor's error "e" is wrapped. -/
theorem required_spec_witness :
    ((required (Opt (SwitchCommon.mk "" "foo" "") "")).get
      (Matches.mk (fun _ => false)
        (fun k => if k == "foo" then some "42" else none)) = .ok "42") ∧
    ((required (Opt (SwitchCommon.mk "" "foo" "") "")).get
        (Matches.mk (fun _ => false) (fun _ => none)) =
      .error (RequiredError.MissingRequiredArg "foo") ∧
      RequiredError.display (fun (e : Never) => nomatch e)
          (RequiredError.MissingRequiredArg "foo") =
        "missing required argument (foo)") ∧
    ((required (Arg.mk ([] : List (SwitchCommon × SwitchShape)) "bad"
        (fun _ => (.error "e" : Except String (Option Nat))))).get
      (Matches.mk (fun _ => false) (fun _ => none)) =
      .error (RequiredError.Arg "e")) := by
  refine ⟨?_, ?_, ?_⟩
  · exact (required_spec _ _ (fun (e : Never) => nomatch e)).1 "42" rfl
  · exact (required_spec _ _ (fun (e : Never) => nomatch e)).2.1 rfl
  · exact (required_spec _ _ (fun e => e)).2.2 "e" rfl

theorem option_convert_string_get_eq {T E EA : Type}
    (a : Arg (Option String) EA) (f : String → Except E T) (m : Matches) :
    (option_convert_string a f).get m =
      OptionConvertString.get_impl a.name (a.get m) f := rfl

/-- C4: for every `OptionConvertString` over an optional-string
descriptor, an absent inner value yields `none` with no error and without
running the conversion (the result is the same for any two conversion
functions); a present value is converted, a failure wrapping the
descriptor name, the original string and the underlying error; inner
errors are wrapped.  In particular the required integer option "foo"
given `["--foo", "42"]` extracts to 42, and given
`["--foo", "notanumber"]` fails with a conversion error naming "foo" and
the literal string "notanumber". -/
theorem option_convert_string_spec {T E EA : Type}
    (a : Arg (Option String) EA) (f g : String → Except E T) (m : Matches) :
    (a.get m = .ok none →
      (option_convert_string a f).get m = .ok none ∧
      (option_convert_string a f).get m =
        (option_convert_string a g).get m) ∧
    (∀ s v, a.get m = .ok (some s) → f s = .ok v →
      (option_convert_string a f).get m = .ok (some v)) ∧
    (∀ s e, a.get m = .ok (some s) → f s = .error e →
      (option_convert_string a f).get m =
        .error (OptionConvertStringError.FailedToConvert a.name s e)) ∧
    (∀ ea, a.get m = .error ea →
      (option_convert_string a f).get m =
        .error (OptionConvertStringError.Arg ea)) ∧
    ((required (opt_u32 "f" "foo" "" "")).parse_specified_ignoring_validation
        "" ["--foo", "42"]).result = .ok 42 ∧
    ((required (opt_u32 "f" "foo" "" "")).parse_specified_ignoring_validation
        "" ["--foo", "notanumber"]).result =
      .error (TopLevelError.Other (RequiredError.Arg
        (OptionConvertStringError.FailedToConvert "foo" "notanumber"
          "invalid digit found in string"))) := by
  refine ⟨fun ha => ⟨?_, ?_⟩, fun s v ha hf => ?_, fun s e ha hf => ?_,
    fun ea ha => ?_, ?_, ?_⟩
  · rw [option_convert_string_get_eq, ha]; rfl
  · rw [option_convert_string_get_eq, option_convert_string_get_eq, ha]; rfl
  · rw [option_convert_string_get_eq, ha]
    simp only [OptionConvertString.get_impl, hf]
  · rw [option_convert_string_get_eq, ha]
    simp only [OptionConvertString.get_impl, hf]
  · rw [option_convert_string_get_eq, ha]; rfl
  · rfl
  · rfl

/-- Witness for C4: a concrete optional string option with long name
"conv" and the integer conversion: absent yields `none` for any
conversion function; "42" converts to 42; "notanumber" gives the
conversion failure naming "conv"; a concrete failing inner descriptor's
error "e" is wrapped. -/
theorem option_convert_string_spec_witness :
    ((option_convert_string (Opt (SwitchCommon.mk "" "conv" "") "")
        parse_u32).get
      (Matches.mk (fun _ => false) (fun _ => none)) = .ok none) ∧
    ((option_convert_string (Opt (SwitchCommon.mk "" "conv" "") "")
        parse_u32).get
      (Matches.mk (fun _ => false)
        (fun k => if k == "conv" then some "42" else none)) =
      .ok (some 42)) ∧
    ((option_convert_string (Opt (SwitchCommon.mk "" "conv" "") "")
        parse_u32).get
      (Matches.mk (fun _ => false)
        (fun k => if k == "conv" then some "notanumber" else none)) =
      .error (OptionConvertStringError.FailedToConvert "conv" "notanumber"
        "invalid digit found in string")) ∧
    ((option_convert_string (Arg.mk [] "bad"
        (fun _ => (.error "e" : Except String (Option String))))
        parse_u32).get
      (Matches.mk (fun _ => false) (fun _ => none)) =
      .error (OptionConvertStringError.Arg "e")) := by
  refine ⟨?_, ?_, ?_, ?_⟩
  · exact ((option_convert_string_spec _ parse_u32 parse_u32 _).1 rfl).1
  · exact (option_convert_string_spec _ parse_u32 parse_u32 _).2.1 "42" 42
      rfl rfl
  · exact (option_convert_string_spec _ parse_u32 parse_u32 _).2.2.1
      "notanumber" "invalid digit found in string" rfl rfl
  · exact (option_convert_string_spec _ parse_u32 parse_u32 _).2.2.2.1 "e"
      rfl

theorem both_get_eq {IA IB EA EB : Type} (a : Arg IA EA) (b : Arg IB EB)
    (m : Matches) :
    (both a b).get m = Both.get_impl (a.get m) (fun _ => b.get m) := rfl

/-- C6: for every `Both` over two descriptors and every match surface, two
successes give the pair of items; a failure of `a` gives `a`'s error
wrapped in the `A` variant whatever `b` does (first error wins, `a` is
extracted before `b`); a failure of `b` after `a`'s success gives `b`'s
error wrapped in the `B` variant.  The required integer options "foo" and
"bar" given `["--foo","7","--bar","9"]` extract to the pair (7, 9), and
the same pair results when the flags are given in the opposite order. -/
theorem both_spec {IA IB EA EB : Type} (a : Arg IA EA) (b : Arg IB EB)
    (m : Matches) :
    (∀ x y, a.get m = .ok x → b.get m = .ok y →
      (both a b).get m = .ok (x, y)) ∧
    (∀ ea, a.get m = .error ea →
      (both a b).get m = .error (BothError.A ea)) ∧
    (∀ x eb, a.get m = .ok x → b.get m = .error eb →
      (both a b).get m = .error (BothError.B eb)) ∧
    ((both (required (opt_u32 "f" "foo" "" ""))
        (required (opt_u32 "b" "bar" "" ""))).parse_specified_ignoring_validation
        "" ["--foo", "7", "--bar", "9"]).result = .ok (7, 9) ∧
    ((both (required (opt_u32 "f" "foo" "" ""))
        (required (opt_u32 "b" "bar" "" ""))).parse_specified_ignoring_validation
        "" ["--bar", "9", "--foo", "7"]).result = .ok (7, 9) := by
  refine ⟨fun x y ha hb => ?_, fun ea ha => ?_, fun x eb ha hb => ?_,
    ?_, ?_⟩
  · rw [both_get_eq, ha]; simp only [Both.get_impl, hb]
  · rw [both_get_eq, ha]; rfl
  · rw [both_get_eq, ha]; simp only [Both.get_impl, hb]
  · rfl
  · rfl

/-- Witness for C6: a concrete pair of optional string options (and
concrete failing descriptors for the error cases): both present pairs the
values; a failing first descriptor's error "ae" wins even when the second
also fails; a failing second descriptor's error "be" is wrapped after the
first succeeds. -/
theorem both_spec_witness :
    ((both (Opt (SwitchCommon.mk "" "aa" "") "")
        (Opt (SwitchCommon.mk "" "bb" "") "")).get
      (Matches.mk (fun _ => false)
        (fun k => if k == "aa" then some "x"
          else if k == "bb" then some "y" else none)) =
      .ok (some "x", some "y")) ∧
    ((both (Arg.mk [] "ea" (fun _ => (.error "ae" : Except String Nat)))
        (Arg.mk [] "eb" (fun _ => (.error "be" : Except String Nat)))).get
      (Matches.mk (fun _ => false) (fun _ => none)) =
      .error (BothError.A "ae")) ∧
    ((both (Opt (SwitchCommon.mk "" "aa" "") "")
        (Arg.mk [] "eb" (fun _ => (.error "be" : Except String Nat)))).get
      (Matches.mk (fun _ => false) (fun _ => none)) =
      .error (BothError.B "be")) := by
  refine ⟨?_, ?_, ?_⟩
  · exact (both_spec _ _ _).1 (some "x") (some "y") rfl rfl
  · exact (both_spec _ _ _).2.1 "ae" rfl
  · exact (both_spec _ _ _).2.2.1 none "be" rfl rfl

/-- The dedup keys of a descriptor tree's switches, in presentation
order. -/
def Arg.switch_keys {I E : Type} (a : Arg I E) : List String :=
  a.switches.map (fun p => dedup_key p.1)

theorem checker_add_foldl (l : List (SwitchCommon × SwitchShape))
    (c : Checker) :
    (l.foldl (fun s p => Checker.add s p.1 p.2) c).keys =
      c.keys ++ l.map (fun p => dedup_key p.1) := by
  induction l generalizing c with
  | nil => simp
  | cons h t ih =>
      rw [List.foldl_cons, ih]
      simp [Checker.add, List.append_assoc]

theorem validate_eq_invalid_of_keys {I E : Type} (a : Arg I E) :
    a.validate = (Checker.mk a.switch_keys).invalid := by
  have h : (a.update_switches Checker.add (Checker.mk [])).keys =
      a.switch_keys := by
    simpa [Arg.update_switches, Arg.switch_keys] using
      checker_add_foldl a.switches (Checker.mk [])
  calc a.validate
      = (Checker.mk
          (a.update_switches Checker.add (Checker.mk [])).keys).invalid :=
        rfl
    _ = (Checker.mk a.switch_keys).invalid := by rw [h]

theorem checker_invalid_eq_none_iff (ks : List String) :
    (Checker.mk ks).invalid = none ↔ ks.Nodup := by
  unfold Checker.invalid
  by_cases hd :
      ((ks.filter (fun k => decide (1 < ks.count k))).dedup).isEmpty
  · simp only [hd, if_true, true_iff]
    rw [List.isEmpty_iff, List.dedup_eq_nil, List.filter_eq_nil_iff] at hd
    rw [List.nodup_iff_count_le_one]
    intro k
    by_cases hk : k ∈ ks
    · have := hd k hk
      simp only [decide_eq_true_eq, not_lt] at this
      exact this
    · have : ks.count k = 0 := by
        exact List.count_eq_zero.mpr hk
      omega
  · rw [Bool.not_eq_true] at hd
    simp only [hd, Bool.false_eq_true, if_false]
    constructor
    · intro h; cases h
    · intro hnd
      exfalso
      have hfe : ks.filter (fun k => decide (1 < ks.count k)) = [] := by
        rw [List.filter_eq_nil_iff]
        intro k hk
        have := List.nodup_iff_count_le_one.mp hnd k
        simp only [decide_eq_true_eq, not_lt]
        exact this
      rw [hfe] at hd
      simp at hd

theorem checker_invalid_of_dup (ks : List String) (k : String)
    (h : 1 < ks.count k) :
    ∃ invalid, (Checker.mk ks).invalid = some invalid ∧ k ∈ invalid := by
  have hk : k ∈ ks := List.count_pos_iff.mp (by omega)
  have hf : k ∈ ks.filter (fun k2 => decide (1 < ks.count k2)) :=
    List.mem_filter.mpr ⟨hk, by simpa using h⟩
  have hdk : k ∈ (ks.filter (fun k2 => decide (1 < ks.count k2))).dedup :=
    List.mem_dedup.mpr hf
  have hne :
      ((ks.filter (fun k2 => decide (1 < ks.count k2))).dedup).isEmpty =
        false := by
    rcases he : (ks.filter (fun k2 => decide (1 < ks.count k2))).dedup with
      _ | _
    · rw [he] at hdk; cases hdk
    · rfl
  refine ⟨(ks.filter (fun k2 => decide (1 < ks.count k2))).dedup, ?_, hdk⟩
  unfold Checker.invalid
  simp only [hne, Bool.false_eq_true, if_false]

/-- C2: for every descriptor tree whose switch dedup keys are pairwise
distinct, validation returns no collision and `parse_specified` proceeds
to parsing (it returns exactly the outcome of
`parse_specified_ignoring_validation`); for every tree in which some key
occurs more than once, validation reports that key and `parse_specified`
panics with a diagnostic whose text does not depend on the argument list
(no argument is parsed), never returning the collision as a normal error
value. -/
theorem validate_collision_spec {I E : Type} (a : Arg I E) :
    (a.switch_keys.Nodup →
      a.validate = none ∧
      ∀ pn args, a.parse_specified pn args =
        PanicOr.returned
          (a.parse_specified_ignoring_validation pn args)) ∧
    (∀ k, 1 < a.switch_keys.count k →
      ∃ invalid, a.validate = some invalid ∧ k ∈ invalid ∧
        ∀ pn args, a.parse_specified pn args =
          PanicOr.panicked
            ("Invalid command spec:\n" ++ Invalid.render invalid)) := by
  constructor
  · intro hnd
    have hv : a.validate = none := by
      rw [validate_eq_invalid_of_keys]
      exact (checker_invalid_eq_none_iff _).mpr hnd
    refine ⟨hv, fun pn args => ?_⟩
    unfold Arg.parse_specified
    rw [hv]
  · intro k hk
    obtain ⟨invalid, hv, hmem⟩ := checker_invalid_of_dup a.switch_keys k hk
    have hv2 : a.validate = some invalid := by
      rw [validate_eq_invalid_of_keys]; exact hv
    refine ⟨invalid, hv2, hmem, fun pn args => ?_⟩
    unfold Arg.parse_specified
    rw [hv2]

/-- Witness for C2: the tree pairing flags "f"/"foo" and "b"/"bar" has
distinct keys, validates cleanly and proceeds to parsing; the tree
pairing flags "f"/"foo" and "f"/"fizz" repeats the key "f", and
`parse_specified` panics with the diagnostic naming it, for any argument
list. -/
theorem validate_collision_spec_witness :
    (both (Flag (SwitchCommon.mk "f" "foo" ""))
        (Flag (SwitchCommon.mk "b" "bar" ""))).validate = none ∧
    (both (Flag (SwitchCommon.mk "f" "foo" ""))
        (Flag (SwitchCommon.mk "b" "bar" ""))).parse_specified "p"
        ["--foo"] =
      PanicOr.returned
        ((both (Flag (SwitchCommon.mk "f" "foo" ""))
          (Flag (SwitchCommon.mk "b" "bar"
            ""))).parse_specified_ignoring_validation "p" ["--foo"]) ∧
    (both (Flag (SwitchCommon.mk "f" "foo" ""))
        (Flag (SwitchCommon.mk "f" "fizz" ""))).parse_specified "p" [] =
      PanicOr.panicked
        ("Invalid command spec:\n" ++ Invalid.render ["f"]) := by
  refine ⟨?_, ?_, ?_⟩
  · exact ((validate_collision_spec _).1 (by decide)).1
  · exact ((validate_collision_spec _).1 (by decide)).2 "p" ["--foo"]
  · obtain ⟨invalid, hv, hmem, hp⟩ :=
      (validate_collision_spec
        (both (Flag (SwitchCommon.mk "f" "foo" ""))
          (Flag (SwitchCommon.mk "f" "fizz" "")))).2 "f" (by decide)
    have hv2 : (both (Flag (SwitchCommon.mk "f" "foo" ""))
        (Flag (SwitchCommon.mk "f" "fizz" ""))).validate = some ["f"] := rfl
    rw [hv2] at hv
    cases hv
    exact hp "p" []

theorem string_length_eq_zero_iff (s : String) : s.length = 0 ↔ s = "" := by
  rw [String.ext_iff]
  exact List.length_eq_zero

/-- C8: for every switch, the effective key is the short name when the
short name is non-empty and the long name otherwise; the spec's
deduplication key coincides with it, the Validation Checker records
exactly it, and `Flag` and `Opt` extraction query presence and value with
exactly it. -/
theorem effective_key_spec (c : SwitchCommon) (m : Matches) (hint : String)
    (ch : Checker) (sh : SwitchShape) :
    (c.short ≠ "" → c.key_to_search_in_matches = c.short) ∧
    (c.short = "" → c.key_to_search_in_matches = c.long) ∧
    dedup_key c = c.key_to_search_in_matches ∧
    (Flag c).get m = .ok (m.opt_present c.key_to_search_in_matches) ∧
    (Opt c hint).get m = .ok (m.opt_str c.key_to_search_in_matches) ∧
    (ch.add c sh).keys = ch.keys ++ [c.key_to_search_in_matches] := by
  have hkey : ∀ h : c.short ≠ "", c.key_to_search_in_matches = c.short := by
    intro h
    unfold SwitchCommon.key_to_search_in_matches
    rw [if_pos]
    intro hlen
    exact h ((string_length_eq_zero_iff c.short).mp hlen)
  have hkey2 : ∀ h : c.short = "", c.key_to_search_in_matches = c.long := by
    intro h
    unfold SwitchCommon.key_to_search_in_matches
    rw [if_neg]
    intro hlen
    exact hlen ((string_length_eq_zero_iff c.short).mpr h)
  have hdedup : dedup_key c = c.key_to_search_in_matches := by
    unfold dedup_key
    by_cases h : c.short = ""
    · rw [if_pos, hkey2 h]
      rw [String.isEmpty_iff]
      exact h
    · rw [if_neg, hkey h]
      rw [String.isEmpty_iff]
      exact h
  refine ⟨hkey, hkey2, hdedup, rfl, rfl, ?_⟩
  unfold Checker.add
  rw [hdedup]

/-- Witness for C8: the switch with short "f" and long "foo" has effective
key "f"; the short-only switch "v" keys by "v"; the long-only switch
"verbose" keys by "verbose"; a `Flag` queries presence at the key and the
Checker records it. -/
theorem effective_key_spec_witness :
    (SwitchCommon.mk "f" "foo" "").key_to_search_in_matches = "f" ∧
    (SwitchCommon.mk "" "verbose" "").key_to_search_in_matches =
      "verbose" ∧
    dedup_key (SwitchCommon.mk "f" "foo" "") =
      (SwitchCommon.mk "f" "foo" "").key_to_search_in_matches ∧
    (Flag (SwitchCommon.mk "f" "foo" "")).get
        (Matches.mk (fun k => k == "f") (fun _ => none)) =
      .ok (("f" : String) == "f") ∧
    ((Checker.mk []).add (SwitchCommon.mk "f" "foo" "")
        SwitchShape.Flag).keys = [("f" : String)] := by
  refine ⟨?_, ?_, ?_, ?_, ?_⟩
  · exact (effective_key_spec (SwitchCommon.mk "f" "foo" "")
      (Matches.mk (fun _ => false) (fun _ => none)) "" (Checker.mk [])
      SwitchShape.Flag).1 (by decide)
  · exact (effective_key_spec (SwitchCommon.mk "" "verbose" "")
      (Matches.mk (fun _ => false) (fun _ => none)) "" (Checker.mk [])
      SwitchShape.Flag).2.1 rfl
  · exact (effective_key_spec (SwitchCommon.mk "f" "foo" "")
      (Matches.mk (fun _ => false) (fun _ => none)) "" (Checker.mk [])
      SwitchShape.Flag).2.2.1
  · exact (effective_key_spec (SwitchCommon.mk "f" "foo" "")
      (Matches.mk (fun k => k == "f") (fun _ => none)) "" (Checker.mk [])
      SwitchShape.Flag).2.2.2.1
  · exact (effective_key_spec (SwitchCommon.mk "f" "foo" "")
      (Matches.mk (fun _ => false) (fun _ => none)) "" (Checker.mk [])
      SwitchShape.Flag).2.2.2.2.2

theorem options_add_foldl (l : List (SwitchCommon × SwitchShape))
    (o : Options) :
    (l.foldl (fun s p => Options.add s p.1 p.2) o).switches =
      o.switches ++ l := by
  induction l generalizing o with
  | nil => simp
  | cons h t ih =>
      rw [List.foldl_cons, ih]
      simp [Options.add, List.append_assoc]

/-- C9: for every descriptor tree, `update_switches` is deterministic and
independent of any match surface: the real registration surface receives
exactly the tree's switch sequence, the Validation Checker records
exactly the corresponding dedup-key sequence, and two independent
(freshly initialised) Validation Checker instances yield identical
collision reports. -/
theorem update_switches_deterministic {I E : Type} (a : Arg I E)
    (c1 c2 : Checker) (h1 : c1.keys = []) (h2 : c2.keys = []) :
    a.update_switches Options.add (Options.mk []) =
      Options.mk a.switches ∧
    (a.update_switches Checker.add (Checker.mk [])).keys =
      a.switch_keys ∧
    (a.update_switches Checker.add c1).invalid =
      (a.update_switches Checker.add c2).invalid := by
  refine ⟨?_, ?_, ?_⟩
  · have h : (a.update_switches Options.add (Options.mk [])).switches =
        a.switches := by
      simpa [Arg.update_switches] using
        options_add_foldl a.switches (Options.mk [])
    calc a.update_switches Options.add (Options.mk [])
        = Options.mk
            (a.update_switches Options.add (Options.mk [])).switches :=
          rfl
      _ = Options.mk a.switches := by rw [h]
  · simpa [Arg.update_switches, Arg.switch_keys] using
      checker_add_foldl a.switches (Checker.mk [])
  · have : c1 = c2 := by
      cases c1; cases c2
      simp only at h1 h2
      rw [h1, h2]
    rw [this]

/-- Witness for C9: the tree pairing flag "f"/"foo" with option "o"/"out"
presents exactly its two switches to the registration surface, records
the keys "f" and "o" on the Checker, and two fresh Checker runs report
identically. -/
theorem update_switches_deterministic_witness :
    (both (Flag (SwitchCommon.mk "f" "foo" "d"))
        (Opt (SwitchCommon.mk "o" "out" "d") "V")).update_switches
        Options.add (Options.mk []) =
      Options.mk [(SwitchCommon.mk "f" "foo" "d", SwitchShape.Flag),
        (SwitchCommon.mk "o" "out" "d", SwitchShape.Opt "V")] ∧
    ((both (Flag (SwitchCommon.mk "f" "foo" "d"))
        (Opt (SwitchCommon.mk "o" "out" "d") "V")).update_switches
        Checker.add (Checker.mk [])).keys = [("f" : String), "o"] ∧
    ((both (Flag (SwitchCommon.mk "f" "foo" "d"))
        (Opt (SwitchCommon.mk "o" "out" "d") "V")).update_switches
        Checker.add (Checker.mk [])).invalid =
      ((both (Flag (SwitchCommon.mk "f" "foo" "d"))
        (Opt (SwitchCommon.mk "o" "out" "d") "V")).update_switches
        Checker.add (Checker.mk [])).invalid := by
  refine ⟨?_, ?_, ?_⟩
  · exact (update_switches_deterministic _ (Checker.mk []) (Checker.mk [])
      rfl rfl).1
  · exact (update_switches_deterministic _ (Checker.mk []) (Checker.mk [])
      rfl rfl).2.1
  · exact (update_switches_deterministic _ (Checker.mk []) (Checker.mk [])
      rfl rfl).2.2

/-- C10: `Flag` and `Opt` names are exactly the long name (the empty
string for a short-only switch), and `Map`, `OptionMap`, `WithDefault`,
`Required` and `OptionConvertString` return their inner descriptor's name
unchanged; consequently, for a short-only switch, the missing-required
and conversion-failure error messages refer to the descriptor by the
empty string. -/
theorem name_passthrough_spec {T U IA EI EA : Type} (c : SwitchCommon)
    (hint : String) (a : Arg IA EI) (f : IA → U) (ao : Arg (Option T) EI)
    (g : T → U) (x : T) (as2 : Arg (Option String) EA)
    (cf : String → Except String U) :
    (Flag c).name = c.long ∧
    (Opt c hint).name = c.long ∧
    (map a f).name = a.name ∧
    (option_map ao g).name = ao.name ∧
    (with_default ao x).name = ao.name ∧
    (required ao).name = ao.name ∧
    (option_convert_string as2 cf).name = as2.name ∧
    (c.long = "" →
      (required (Opt c hint)).name = "" ∧
      RequiredError.display (fun (e : Never) => nomatch e)
          (RequiredError.MissingRequiredArg
            ((required (Opt c hint)).name)) =
        "missing required argument ()" ∧
      OptionConvertStringError.display (fun (e : Never) => nomatch e)
          (fun e => e)
          (OptionConvertStringError.FailedToConvert
            ((option_convert_string (Opt c hint) parse_u32).name) "xyz"
            "err") =
        "failed to convert argument (). \"xyz\" could not be parsed (error: err)") := by
  refine ⟨rfl, rfl, rfl, rfl, rfl, rfl, rfl, fun h => ?_⟩
  have hn : (required (Opt c hint)).name = "" := h
  have hn2 : (option_convert_string (Opt c hint) parse_u32).name = "" := h
  refine ⟨hn, ?_, ?_⟩
  · rw [hn]; rfl
  · rw [hn2]; rfl

/-- Witness for C10: the short-only flag with short "f" has name "";
wrapping the short-only option "v" in `required` keeps the empty name,
and its missing-required message is "missing required argument ()". -/
theorem name_passthrough_spec_witness :
    (Flag (SwitchCommon.mk "f" "" "d")).name = "" ∧
    (required (Opt (SwitchCommon.mk "v" "" "d") "")).name = "" ∧
    RequiredError.display (fun (e : Never) => nomatch e)
        (RequiredError.MissingRequiredArg
          ((required (Opt (SwitchCommon.mk "v" "" "d") "")).name)) =
      "missing required argument ()" := by
  refine ⟨?_, ?_, ?_⟩
  · exact (name_passthrough_spec (SwitchCommon.mk "f" "" "d") ""
      (Value "v" (0 : Nat)) (fun n => n) (Value "v" (none : Option Nat))
      (fun n => n) 0 (Opt (SwitchCommon.mk "v" "" "d") "")
      parse_u32).1
  · exact ((name_passthrough_spec (SwitchCommon.mk "v" "" "d") ""
      (Value "v" (0 : Nat)) (fun n => n) (Value "v" (none : Option Nat))
      (fun n => n) 0 (Opt (SwitchCommon.mk "v" "" "d") "")
      parse_u32).2.2.2.2.2.2.2 rfl).1
  · exact ((name_passthrough_spec (SwitchCommon.mk "v" "" "d") ""
      (Value "v" (0 : Nat)) (fun n => n) (Value "v" (none : Option Nat))
      (fun n => n) 0 (Opt (SwitchCommon.mk "v" "" "d") "")
      parse_u32).2.2.2.2.2.2.2 rfl).2.1

end Argle
